import Mathlib

/-!
Shallow embedding of src/disk_size.py, a two-backend disk-enumeration CLI.

External collaborators (the lsblk shell pipeline, the WMI disk-drive query,
psutil volume enumeration and the human-readable size formatter) are opaque
data sources per the specification; they enter each definition as explicit
parameters.  Printing is modelled by returning the list of payloads handed to
the successive print calls.  A Python statement that can raise an uncaught
exception is modelled with Except.
-/

set_option autoImplicit false

namespace DiskSize

/-! ## Python-semantics helpers

String primitives are written over the character list of the string so that
concrete instances reduce well; each models the Python operation the source
uses. -/

/-- Python str.strip() on the character list: whitespace removed from both
ends. -/
def pyStripChars (cs : List Char) : List Char :=
  ((cs.dropWhile Char.isWhitespace).reverse.dropWhile Char.isWhitespace).reverse

/-- Python str.strip(). -/
def pyStrip (s : String) : String :=
  ⟨pyStripChars s.data⟩

/-- Grouping step shared by the two split operations: cut a character list
at every character satisfying p, keeping empty groups. -/
def pyCutOn (p : Char → Bool) (cs : List Char) : List (List Char) :=
  cs.foldr
    (fun c acc => if p c then [] :: acc else (c :: acc.headD []) :: acc.tail)
    [[]]

/-- Python str.split(single-space): cuts at every single space and keeps the
empty pieces, so the result is never the empty list. -/
def pySplitOnSpace (s : String) : List String :=
  (pyCutOn (fun c => c = ' ') s.data).map (fun g => ⟨g⟩)

/-- Python str.split() with no argument: splits on whitespace runs and drops
the empty pieces. -/
def pySplitWs (s : String) : List String :=
  ((pyCutOn Char.isWhitespace s.data).filter (fun g => g ≠ [])).map (fun g => ⟨g⟩)

/-- Python int(s) on a string: surrounding whitespace is stripped, one
leading sign is allowed, then a nonempty run of decimal digits is required.
Returns none exactly when int() raises ValueError. -/
def pyInt (s : String) : Option Int :=
  let t := pyStripChars s.data
  let sign : Int := if t.headD ' ' = '-' then -1 else 1
  let digits := if t.headD ' ' = '-' || t.headD ' ' = '+' then t.tail else t
  if !digits.isEmpty && digits.all Char.isDigit then
    some (sign * (digits.foldl (fun acc c => 10 * acc + (c.toNat - 48)) 0 : Nat))
  else
    none

/-- Python s.replace(c, empty) for a one-character pattern: every occurrence
of the character is removed. -/
def pyRemoveChar (s : String) (c : Char) : String :=
  ⟨s.data.filter (fun x => x ≠ c)⟩

/-- Python empty-separator str.join over a list of strings. -/
def pyJoin (parts : List String) : String :=
  ⟨(parts.map String.data).flatten⟩

/-- Python sep.join over a list of strings. -/
def pyJoinSep (sep : String) (parts : List String) : String :=
  ⟨(List.intersperse sep.data (parts.map String.data)).flatten⟩

/-- Python list indexing l[i], including the negative-index wraparound;
none exactly when IndexError is raised. -/
def pyIndex {α : Type} (l : List α) (i : Int) : Option α :=
  if 0 ≤ i then l.get? i.toNat
  else if i.natAbs ≤ l.length then l.get? (l.length - i.natAbs)
  else none

/-- Python uncaught-exception kinds reachable in this program. -/
inductive PyError : Type
  | indexError : PyError
deriving DecidableEq, Repr

/-! ## POSIX backend (LinuxOSDiskChecker)

The parameter lsblkLines is the readlines() result of the pipeline
lsblk -o NAME,TYPE,SIZE filtered through grep for disk rows; lsblkOnPath
gives the readlines() result of lsblk run on one device path. -/

/-- Source line 39: each raw line stripped and split on single spaces.
Python str.split(sep) never returns an empty list, and neither does
pySplitOnSpace, so element 0 and element -1 below always exist. -/
def linuxHardDrives (lsblkLines : List String) : List (List String) :=
  lsblkLines.map (fun disk => pySplitOnSpace (pyStrip disk))

/-- Source line 42: hard_drives_data entries, the pair of
/dev/ prepended to drive[0] and drive[-1].  The headD/getLastD defaults are
never used because the split lists are nonempty. -/
def linuxHardDrivesData (lsblkLines : List String) : List (String × String) :=
  (linuxHardDrives lsblkLines).map
    (fun drive => ("/dev/" ++ drive.headD "", drive.getLastD ""))

/-- Printed report of the POSIX check_disks (source lines 46-50): the count
header (whose format string ends in a colon, a space and an embedded newline)
followed by one numbered line per drive. -/
def linuxReportLines (data : List (String × String)) : List String :=
  ("You have " ++ toString data.length ++ " hard " ++
      (if data.length > 1 then "drives" else "drive") ++ " installed: \n")
    :: (List.enumFrom 1 data).map
      (fun p => toString p.1 ++ ". " ++ p.2.1 ++ " -> " ++ p.2.2)

/-- LinuxOSDiskChecker.check_disks (source lines 32-50).  The result pair is
(returned value, payloads of the print calls in order). -/
def linuxCheckDisks (lsblkLines : List String) (return_data : Bool) :
    Option (List (String × String)) × List String :=
  let hard_drives_data := linuxHardDrivesData lsblkLines
  if return_data then (some hard_drives_data, [])
  else (none, linuxReportLines hard_drives_data)

/-- Tail of LinuxOSDiskChecker.check_specific_drive (source lines 77-83),
entered once hard_drive_path is resolved: run lsblk on the path; on nonempty
output print the header built from partitions[1].split()[0] and then the
joined output verbatim; on empty output print the not-found message.  The
two subscript steps sit outside every try block, so their IndexError is
uncaught. -/
def linuxAfterPath (lsblkOnPath : String → List String)
    (inp hard_drive_path : String) : Except PyError (List String) :=
  let partitions := lsblkOnPath hard_drive_path
  if partitions ≠ [] then
    match pyIndex partitions 1 with
    | none => .error .indexError
    | some second =>
      match pySplitWs second with
      | [] => .error .indexError
      | tok :: _ =>
        .ok ["Below are the partitions for \"/dev/" ++ tok ++ "\" drive:",
             pyJoin partitions]
  else
    .ok ["Drive " ++ inp ++ " not found!"]

/-- LinuxOSDiskChecker.check_specific_drive (source lines 52-83).  The call
check_disks(return_data=True) returns hard_drives_data, inlined here as
linuxHardDrivesData. -/
def linuxCheckSpecificDrive (lsblkLines : List String)
    (lsblkOnPath : String → List String) (inp : String) :
    Except PyError (List String) :=
  match pyInt inp with
  | some n =>
    let hard_drive_id : Int := n - 1
    let disks_list := linuxHardDrivesData lsblkLines
    match pyIndex disks_list hard_drive_id with
    | some entry => linuxAfterPath lsblkOnPath inp entry.1
    | none =>
      .ok ("Please enter the correct hard drive id!"
            :: (linuxCheckDisks lsblkLines false).2)
  | none => linuxAfterPath lsblkOnPath inp inp

/-! ## Windows-like backend (WindowsOSDiskChecker)

The parameter diskDrives is the Win32_DiskDrive query result, volumes the
str() renderings of psutil.disk_partitions(), and fmtSize the opaque
human-readable size formatter applied to the integer size field. -/

/-- One Win32_DiskDrive object, restricted to the fields the program reads. -/
structure WinDisk : Type where
  DeviceID : String
  Description : String
  size : Int
deriving DecidableEq, Repr

/-- One drives_data tuple: 1-based index, DeviceID with dots and backslashes
stripped, description, formatted size, and the volume appended later by the
zip (absent until then). -/
structure WinDriveRecord : Type where
  index : Nat
  deviceId : String
  description : String
  sizeDisplay : String
  volume : Option String
deriving DecidableEq, Repr

/-- Source lines 97-100: the drives_data list comprehension. -/
def winDrivesData (diskDrives : List WinDisk) (fmtSize : Int → String) :
    List WinDriveRecord :=
  (List.enumFrom 1 diskDrives).map
    (fun p =>
      { index := p.1
        deviceId := pyRemoveChar (pyRemoveChar p.2.DeviceID '.') '\\'
        description := p.2.Description
        sizeDisplay := fmtSize p.2.size
        volume := none })

/-- Source line 105: the comprehension over zip(drives_data, volumes) appends
one volume to each tuple of the zipped prefix in place; tuples past the
shorter list's length are left untouched. -/
def winAttachVolumes (drives_data : List WinDriveRecord)
    (volumes : List String) : List WinDriveRecord :=
  drives_data.zipWith (fun drive volume => { drive with volume := some volume })
      volumes
    ++ drives_data.drop volumes.length

/-- Fields of one tuple as str() renders them for the two-space joins at
source lines 110 and 121. -/
def winRecordFields (drive : WinDriveRecord) : List String :=
  [toString drive.index, drive.deviceId, drive.description, drive.sizeDisplay]
    ++ (match drive.volume with
        | some volume => [volume]
        | none => [])

/-- WindowsOSDiskChecker.check_disks (source lines 92-110). -/
def winCheckDisks (diskDrives : List WinDisk) (volumes : List String)
    (fmtSize : Int → String) (return_data : Bool) :
    Option (List WinDriveRecord) × List String :=
  let drives_data := winDrivesData diskDrives fmtSize
  if return_data then (some (winAttachVolumes drives_data volumes), [])
  else
    (none,
     ("You have " ++ toString drives_data.length ++ " hard drives installed")
       :: drives_data.map (fun drive => pyJoinSep "  " (winRecordFields drive)))

/-- WindowsOSDiskChecker.check_specific_drive (source lines 112-128).  Both
the ValueError from int(inp) and the IndexError from hard_drives[disk_id]
are caught locally, so the operation is total. -/
def winCheckSpecificDrive (diskDrives : List WinDisk) (volumes : List String)
    (fmtSize : Int → String) (inp : String) : List String :=
  match pyInt inp with
  | some n =>
    let disk_id : Int := n - 1
    let hard_drives := winAttachVolumes (winDrivesData diskDrives fmtSize) volumes
    match pyIndex hard_drives disk_id with
    | some drive => [pyJoinSep "  " (winRecordFields drive)]
    | none =>
      "Disk with that index does not exist! Please try again."
        :: (winCheckDisks diskDrives volumes fmtSize false).2
  | none =>
    "Please enter valid disk (whole) number! Reference below. \n"
      :: (winCheckDisks diskDrives volumes fmtSize false).2

/-! ## Dispatcher and constructor -/

/-- Operation selected by DiskCheckerAbstractClass constructor. -/
inductive CheckerOp : Type
  | enumerateAll : CheckerOp
  | describeOne : String → CheckerOp
deriving DecidableEq, Repr

/-- Source lines 15-19: the truthiness test on hard_drive; None and the
empty string are falsy, every other string is truthy. -/
def diskCheckerInit (hard_drive : Option String) : CheckerOp :=
  match hard_drive with
  | none => .enumerateAll
  | some s => if s = "" then .enumerateAll else .describeOne s

/-- Source line 132: sys.argv[1] when present, else None. -/
def mainSelector (argv : List String) : Option String :=
  if argv.length > 1 then argv.get? 1 else none

/-! ## Consecutive-run experiment for the idempotence claim -/

/-- Printed outputs of two consecutive POSIX check_disks() calls, each
re-reading the device set from its own pipeline snapshot. -/
def linuxTwoRuns (lines1 lines2 : List String) : List String × List String :=
  ((linuxCheckDisks lines1 false).2, (linuxCheckDisks lines2 false).2)

/-- Printed outputs of two consecutive Windows-like check_disks() calls,
each re-querying its own WMI snapshot. -/
def winTwoRuns (disks1 : List WinDisk) (vols1 : List String)
    (disks2 : List WinDisk) (vols2 : List String) (fmtSize : Int → String) :
    List String × List String :=
  ((winCheckDisks disks1 vols1 fmtSize false).2,
   (winCheckDisks disks2 vols2 fmtSize false).2)

/-! ## Helper lemmas -/

/-- Nonnegative Python indices are plain zero-based lookups. -/
theorem pyIndex_nonneg {α : Type} (l : List α) (i : Int) (h : 0 ≤ i) :
    pyIndex l i = l.get? i.toNat := by
  simp [pyIndex, h]

/-- IndexError characterisation of Python indexing: l[i] raises exactly when
i is at least the length or strictly below the negated length. -/
theorem pyIndex_eq_none_iff {α : Type} (l : List α) (i : Int) :
    pyIndex l i = none ↔ (l.length : Int) ≤ i ∨ i < -(l.length : Int) := by
  unfold pyIndex
  by_cases h : 0 ≤ i
  · rw [if_pos h, List.get?_eq_none]
    omega
  · rw [if_neg h]
    by_cases h2 : i.natAbs ≤ l.length
    · rw [if_pos h2, List.get?_eq_none]
      omega
    · rw [if_neg h2]
      simp only [true_iff]
      omega

/-- Tuples built by the drives_data comprehension carry no volume yet. -/
theorem winDrivesData_volume_none (diskDrives : List WinDisk)
    (fmtSize : Int → String) :
    ∀ r ∈ winDrivesData diskDrives fmtSize, r.volume = none := by
  intro r hr
  simp only [winDrivesData, List.mem_map] at hr
  obtain ⟨p, _, rfl⟩ := hr
  rfl

/-- Appending volumes over the zip never changes the number of tuples. -/
theorem winAttachVolumes_length (drives_data : List WinDriveRecord)
    (volumes : List String) :
    (winAttachVolumes drives_data volumes).length = drives_data.length := by
  simp [winAttachVolumes]
  omega

/-- Element-wise description of the zip-append: tuple k receives volume k
when one exists, and is returned unchanged past the end of the volume list
(given that no tuple carried a volume beforehand). -/
theorem winAttachVolumes_get (drives_data : List WinDriveRecord)
    (volumes : List String)
    (hnone : ∀ r ∈ drives_data, r.volume = none) (k : Nat) :
    (winAttachVolumes drives_data volumes).get? k =
      (drives_data.get? k).map (fun d => { d with volume := volumes.get? k }) := by
  induction drives_data generalizing volumes k with
  | nil => simp [winAttachVolumes]
  | cons d ds ih =>
    cases volumes with
    | nil =>
      cases k with
      | zero =>
        have hd : d.volume = none := hnone d (by simp)
        cases d
        simp_all [winAttachVolumes]
      | succ k =>
        have hih := ih [] (fun r hr => hnone r (by simp [hr])) k
        simpa [winAttachVolumes] using hih
    | cons v vs =>
      cases k with
      | zero => simp [winAttachVolumes]
      | succ k =>
        have hih := ih vs (fun r hr => hnone r (by simp [hr])) k
        simpa [winAttachVolumes] using hih

/-- Return-mode POSIX enumeration returns hard_drives_data and prints
nothing. -/
theorem linuxCheckDisks_true (lsblkLines : List String) :
    linuxCheckDisks lsblkLines true = (some (linuxHardDrivesData lsblkLines), []) :=
  rfl

/-- Return-mode Windows-like enumeration returns the zipped tuples and
prints nothing. -/
theorem winCheckDisks_true (diskDrives : List WinDisk) (volumes : List String)
    (fmtSize : Int → String) :
    winCheckDisks diskDrives volumes fmtSize true =
      (some (winAttachVolumes (winDrivesData diskDrives fmtSize) volumes), []) :=
  rfl

/-! ## Claim theorems -/

/-- Claim C1: for every selector that parses to an in-range 1-based index i,
POSIX describe-one proceeds with exactly the device path of the i-th record
of enumerate-all(returnData=true), and Windows-like describe-one prints
exactly the joined fields of the i-th tuple of
enumerate-all(returnData=true). -/
theorem c1_describe_one_selects_ith
    (lsblkLines : List String) (lsblkOnPath : String → List String)
    (diskDrives : List WinDisk) (volumes : List String) (fmtSize : Int → String)
    (s : String) (v : Int) (hpy : pyInt s = some v) (hv : 1 ≤ v) :
    (∀ data entry, (linuxCheckDisks lsblkLines true).1 = some data →
      data.get? (v.toNat - 1) = some entry →
      linuxCheckSpecificDrive lsblkLines lsblkOnPath s =
        linuxAfterPath lsblkOnPath s entry.1)
    ∧ (∀ wdata drive,
      (winCheckDisks diskDrives volumes fmtSize true).1 = some wdata →
      wdata.get? (v.toNat - 1) = some drive →
      winCheckSpecificDrive diskDrives volumes fmtSize s =
        [pyJoinSep "  " (winRecordFields drive)]) := by
  have hidx : (v - 1).toNat = v.toNat - 1 := by omega
  have h0 : (0 : Int) ≤ v - 1 := by omega
  constructor
  · intro data entry hdata hentry
    have hdata2 : linuxHardDrivesData lsblkLines = data := by
      simpa [linuxCheckDisks_true] using hdata
    subst hdata2
    simp only [linuxCheckSpecificDrive, hpy]
    rw [pyIndex_nonneg _ _ h0, hidx, hentry]
  · intro wdata drive hdata hentry
    have hdata2 : winAttachVolumes (winDrivesData diskDrives fmtSize) volumes = wdata := by
      simpa [winCheckDisks_true] using hdata
    subst hdata2
    simp only [winCheckSpecificDrive, hpy]
    rw [pyIndex_nonneg _ _ h0, hidx, hentry]

/-- Witness for C1 at two POSIX rows and two WMI disks, selector 2. -/
theorem c1_describe_one_selects_ith_witness :
    linuxCheckSpecificDrive ["sda disk 10G\n", "sdb disk 20G\n"]
        (fun _ => ["NAME TYPE SIZE\n", "sdb disk 20G\n"]) "2" =
      linuxAfterPath (fun _ => ["NAME TYPE SIZE\n", "sdb disk 20G\n"]) "2" "/dev/sdb"
    ∧ winCheckSpecificDrive [⟨"a", "d1", 10⟩, ⟨"b", "d2", 20⟩] ["v0"]
        (fun _ => "S") "2" =
      [pyJoinSep "  " (winRecordFields ⟨2, "b", "d2", "S", none⟩)] := by
  have h := c1_describe_one_selects_ith ["sda disk 10G\n", "sdb disk 20G\n"]
    (fun _ => ["NAME TYPE SIZE\n", "sdb disk 20G\n"])
    [⟨"a", "d1", 10⟩, ⟨"b", "d2", 20⟩] ["v0"] (fun _ => "S") "2" 2 rfl (by decide)
  exact ⟨h.1 _ ("/dev/sdb", "20G") rfl rfl, h.2 _ ⟨2, "b", "d2", "S", none⟩ rfl rfl⟩

/-- Claim C2 fails as stated: with one POSIX disk, selector 0 lies outside
the range, yet describe-one selects the last record by Python negative
indexing and prints its partition listing without the out-of-range message;
the Windows-like backend behaves the same way. -/
theorem c2_counterexample :
    (linuxHardDrivesData ["sda disk 10G\n"]).length = 1
    ∧ linuxCheckSpecificDrive ["sda disk 10G\n"]
        (fun _ => ["NAME TYPE SIZE\n", "sda disk 10G\n"]) "0" =
      .ok ["Below are the partitions for \"/dev/sda\" drive:",
           "NAME TYPE SIZE\nsda disk 10G\n"]
    ∧ "Please enter the correct hard drive id!" ∉
        ["Below are the partitions for \"/dev/sda\" drive:",
         "NAME TYPE SIZE\nsda disk 10G\n"]
    ∧ winCheckSpecificDrive [⟨"a", "d", 5⟩] ["v"] (fun _ => "S") "0" =
      [pyJoinSep "  " (winRecordFields ⟨1, "a", "d", "S", some "v"⟩)]
    ∧ "Disk with that index does not exist! Please try again." ∉
        [pyJoinSep "  " (winRecordFields ⟨1, "a", "d", "S", some "v"⟩)] := by
  exact ⟨rfl, rfl, by decide, rfl, by decide⟩

/-- Claim C2 amended: integer selectors with value above N or at most -N
trigger the out-of-range message plus the fallback full listing on either
backend (selectors in the band from 1-N to 0 instead reach an existing
record through Python negative indexing, as the counterexample shows). -/
theorem c2_out_of_range_reports
    (lsblkLines : List String) (lsblkOnPath : String → List String)
    (diskDrives : List WinDisk) (volumes : List String) (fmtSize : Int → String)
    (s : String) (v : Int) (hpy : pyInt s = some v) :
    ((((linuxHardDrivesData lsblkLines).length : Int) < v ∨
        v ≤ -((linuxHardDrivesData lsblkLines).length : Int)) →
      linuxCheckSpecificDrive lsblkLines lsblkOnPath s =
        .ok ("Please enter the correct hard drive id!"
              :: (linuxCheckDisks lsblkLines false).2))
    ∧ (((diskDrives.length : Int) < v ∨ v ≤ -(diskDrives.length : Int)) →
      winCheckSpecificDrive diskDrives volumes fmtSize s =
        "Disk with that index does not exist! Please try again."
          :: (winCheckDisks diskDrives volumes fmtSize false).2) := by
  constructor
  · intro hrange
    have hnone : pyIndex (linuxHardDrivesData lsblkLines) (v - 1) = none := by
      rw [pyIndex_eq_none_iff]; omega
    simp [linuxCheckSpecificDrive, hpy, hnone]
  · intro hrange
    have hlen : (winAttachVolumes (winDrivesData diskDrives fmtSize) volumes).length
        = diskDrives.length := by
      rw [winAttachVolumes_length]; simp [winDrivesData]
    have hnone : pyIndex (winAttachVolumes (winDrivesData diskDrives fmtSize) volumes)
        (v - 1) = none := by
      rw [pyIndex_eq_none_iff, hlen]; omega
    simp [winCheckSpecificDrive, hpy, hnone]

/-- Witness for the amended C2: selector 5 against one disk on each
backend. -/
theorem c2_out_of_range_reports_witness :
    linuxCheckSpecificDrive ["sda disk 10G\n"] (fun _ => []) "5" =
      .ok ("Please enter the correct hard drive id!"
            :: (linuxCheckDisks ["sda disk 10G\n"] false).2)
    ∧ winCheckSpecificDrive [⟨"a", "d", 5⟩] ["v"] (fun _ => "S") "5" =
      "Disk with that index does not exist! Please try again."
        :: (winCheckDisks [⟨"a", "d", 5⟩] ["v"] (fun _ => "S") false).2 := by
  have h := c2_out_of_range_reports ["sda disk 10G\n"] (fun _ => [])
    [⟨"a", "d", 5⟩] ["v"] (fun _ => "S") "5" 5 rfl
  exact ⟨h.1 (by decide), h.2 (by decide)⟩

/-- Claim C3 fails as stated: an external listing of exactly one line
satisfies the at-least-one-line precondition, yet the header computation
indexes the second line and raises an uncaught IndexError. -/
theorem c3_counterexample :
    (["only line\n"] : List String) ≠ []
    ∧ linuxCheckSpecificDrive [] (fun _ => ["only line\n"]) "/dev/sda" =
      .error .indexError := by
  exact ⟨by decide, rfl⟩

/-- Claim C3 amended: whenever the listing yields at least two lines and the
second line contains a whitespace-separated token, the operation prints the
header naming that token prefixed by /dev/ and then all returned lines
verbatim as one joined payload; whenever the listing yields zero lines it
prints the not-found message naming the original selector. -/
theorem c3_header_and_verbatim
    (lsblkOnPath : String → List String) (inp hard_drive_path : String) :
    (∀ l1 l2 rest tok toks, lsblkOnPath hard_drive_path = l1 :: l2 :: rest →
      pySplitWs l2 = tok :: toks →
      linuxAfterPath lsblkOnPath inp hard_drive_path =
        .ok ["Below are the partitions for \"/dev/" ++ tok ++ "\" drive:",
             pyJoin (lsblkOnPath hard_drive_path)])
    ∧ (lsblkOnPath hard_drive_path = [] →
      linuxAfterPath lsblkOnPath inp hard_drive_path =
        .ok ["Drive " ++ inp ++ " not found!"]) := by
  constructor
  · intro l1 l2 rest tok toks hlines htok
    have h1 : pyIndex (l1 :: l2 :: rest) 1 = some l2 := rfl
    simp [linuxAfterPath, hlines, h1, htok]
  · intro hlines
    simp [linuxAfterPath, hlines]

/-- Witness for the amended C3 on a two-line listing and on an empty
listing. -/
theorem c3_header_and_verbatim_witness :
    linuxAfterPath (fun _ => ["NAME TYPE SIZE\n", "sdb disk 20G\n"]) "2" "/dev/sdb" =
      .ok ["Below are the partitions for \"/dev/sdb\" drive:",
           pyJoin ["NAME TYPE SIZE\n", "sdb disk 20G\n"]]
    ∧ linuxAfterPath (fun _ => []) "zzz" "zzz" = .ok ["Drive zzz not found!"] := by
  exact ⟨(c3_header_and_verbatim (fun _ => ["NAME TYPE SIZE\n", "sdb disk 20G\n"])
      "2" "/dev/sdb").1 "NAME TYPE SIZE\n" "sdb disk 20G\n" [] "sdb" ["disk", "20G"]
      rfl rfl,
    (c3_header_and_verbatim (fun _ => []) "zzz" "zzz").2 rfl⟩

/-- Claim C4: Windows-like enumerate-all(returnData=true) pairs disk tuples
with volumes positionally, truncating at the shorter list and raising no
error; tuple k carries volume k when one exists and no volume beyond the
volume count. -/
theorem c4_positional_zip (diskDrives : List WinDisk) (volumes : List String)
    (fmtSize : Int → String) :
    ∃ res, (winCheckDisks diskDrives volumes fmtSize true).1 = some res
      ∧ res.length = diskDrives.length
      ∧ (∀ k : Nat, res.get? k =
          ((winDrivesData diskDrives fmtSize).get? k).map
            (fun d => { d with volume := volumes.get? k }))
      ∧ (∀ k : Nat, volumes.length ≤ k → ∀ r, res.get? k = some r →
          r.volume = none) := by
  refine ⟨winAttachVolumes (winDrivesData diskDrives fmtSize) volumes, rfl, ?_, ?_, ?_⟩
  · rw [winAttachVolumes_length]; simp [winDrivesData]
  · exact winAttachVolumes_get _ _ (winDrivesData_volume_none _ _)
  · intro k hk r hr
    rw [winAttachVolumes_get _ _ (winDrivesData_volume_none _ _)] at hr
    rw [List.get?_eq_none.mpr hk] at hr
    cases hmap : (winDrivesData diskDrives fmtSize).get? k with
    | none => rw [hmap] at hr; simp at hr
    | some d =>
      rw [hmap] at hr
      simp only [Option.map_some', Option.some.injEq] at hr
      rw [← hr]

/-- Witness for C4: two disks against one volume. -/
theorem c4_positional_zip_witness :
    ∃ res, (winCheckDisks [⟨"a", "d1", 10⟩, ⟨"b", "d2", 20⟩] ["v0"]
        (fun _ => "S") true).1 = some res
      ∧ res.length = ([⟨"a", "d1", 10⟩, ⟨"b", "d2", 20⟩] : List WinDisk).length
      ∧ (∀ k : Nat, res.get? k =
          ((winDrivesData [⟨"a", "d1", 10⟩, ⟨"b", "d2", 20⟩] (fun _ => "S")).get? k).map
            (fun d => { d with volume := (["v0"] : List String).get? k }))
      ∧ (∀ k : Nat, (["v0"] : List String).length ≤ k → ∀ r, res.get? k = some r →
          r.volume = none) :=
  c4_positional_zip [⟨"a", "d1", 10⟩, ⟨"b", "d2", 20⟩] ["v0"] (fun _ => "S")

/-- Claim C5: a selector that does not parse as an integer is taken literally
as the device path on the POSIX backend, the enumeration snapshot being
irrelevant. -/
theorem c5_noninteger_selector_is_path
    (lsblkLines lsblkLines2 : List String) (lsblkOnPath : String → List String)
    (s : String) (hpy : pyInt s = none) :
    linuxCheckSpecificDrive lsblkLines lsblkOnPath s =
      linuxAfterPath lsblkOnPath s s
    ∧ linuxCheckSpecificDrive lsblkLines lsblkOnPath s =
      linuxCheckSpecificDrive lsblkLines2 lsblkOnPath s := by
  have h1 : linuxCheckSpecificDrive lsblkLines lsblkOnPath s =
      linuxAfterPath lsblkOnPath s s := by
    simp [linuxCheckSpecificDrive, hpy]
  have h2 : linuxCheckSpecificDrive lsblkLines2 lsblkOnPath s =
      linuxAfterPath lsblkOnPath s s := by
    simp [linuxCheckSpecificDrive, hpy]
  exact ⟨h1, h1.trans h2.symm⟩

/-- Witness for C5 with the non-integer selector /dev/sda. -/
theorem c5_noninteger_selector_is_path_witness :
    pyInt "/dev/sda" = none
    ∧ linuxCheckSpecificDrive ["sda disk 10G\n"] (fun p => [p ++ "\n", "x\n"])
        "/dev/sda" =
      linuxAfterPath (fun p => [p ++ "\n", "x\n"]) "/dev/sda" "/dev/sda" := by
  exact ⟨rfl, (c5_noninteger_selector_is_path ["sda disk 10G\n"] []
    (fun p => [p ++ "\n", "x\n"]) "/dev/sda" rfl).1⟩

/-- Claim C6: a selector that does not parse as an integer makes the
Windows-like describe-one print the usage hint and the full report; no path
is ever queried, as the output shape shows. -/
theorem c6_noninteger_selector_hint
    (diskDrives : List WinDisk) (volumes : List String) (fmtSize : Int → String)
    (s : String) (hpy : pyInt s = none) :
    winCheckSpecificDrive diskDrives volumes fmtSize s =
      "Please enter valid disk (whole) number! Reference below. \n"
        :: (winCheckDisks diskDrives volumes fmtSize false).2 := by
  simp [winCheckSpecificDrive, hpy]

/-- Witness for C6 with the non-integer selector abc. -/
theorem c6_noninteger_selector_hint_witness :
    winCheckSpecificDrive [⟨"a", "d", 5⟩] ["v"] (fun _ => "S") "abc" =
      "Please enter valid disk (whole) number! Reference below. \n"
        :: (winCheckDisks [⟨"a", "d", 5⟩] ["v"] (fun _ => "S") false).2 :=
  c6_noninteger_selector_hint [⟨"a", "d", 5⟩] ["v"] (fun _ => "S") "abc" rfl

/-- Claim C7 fails as stated: the first printed payload of the POSIX report
is the header with a trailing colon, space and embedded newline, not the
bare sentence the claim quotes. -/
theorem c7_counterexample :
    (linuxCheckDisks ["sda disk 232.9G\n", "sdb disk 1T\n"] false).2.head? =
      some "You have 2 hard drives installed: \n"
    ∧ "You have 2 hard drives installed: \n" ≠ "You have 2 hard drives installed" := by
  exact ⟨rfl, by decide⟩

/-- Claim C7 amended: on the two example rows, return mode yields the two
path-size records, and print mode emits the header payload ending in colon,
space and newline followed by the two numbered lines. -/
theorem c7_example_report :
    (linuxCheckDisks ["sda disk 232.9G\n", "sdb disk 1T\n"] true).1 =
      some [("/dev/sda", "232.9G"), ("/dev/sdb", "1T")]
    ∧ (linuxCheckDisks ["sda disk 232.9G\n", "sdb disk 1T\n"] false).2 =
      ["You have 2 hard drives installed: \n",
       "1. /dev/sda -> 232.9G", "2. /dev/sdb -> 1T"] := by
  exact ⟨rfl, rfl⟩

/-- Claim C8: two consecutive print-mode enumerations over an unchanged
device snapshot print identical output on either backend. -/
theorem c8_idempotent_reports
    (lines1 lines2 : List String) (disks1 disks2 : List WinDisk)
    (vols1 vols2 : List String) (fmtSize : Int → String) :
    (lines1 = lines2 →
      (linuxTwoRuns lines1 lines2).1 = (linuxTwoRuns lines1 lines2).2)
    ∧ (disks1 = disks2 → vols1 = vols2 →
      (winTwoRuns disks1 vols1 disks2 vols2 fmtSize).1 =
        (winTwoRuns disks1 vols1 disks2 vols2 fmtSize).2) := by
  constructor
  · intro h; subst h; rfl
  · intro h1 h2; subst h1; subst h2; rfl

/-- Witness for C8 on concrete equal snapshots. -/
theorem c8_idempotent_reports_witness :
    (linuxTwoRuns ["sda disk 10G\n"] ["sda disk 10G\n"]).1 =
      (linuxTwoRuns ["sda disk 10G\n"] ["sda disk 10G\n"]).2
    ∧ (winTwoRuns [⟨"a", "d", 5⟩] ["v"] [⟨"a", "d", 5⟩] ["v"] (fun _ => "S")).1 =
      (winTwoRuns [⟨"a", "d", 5⟩] ["v"] [⟨"a", "d", 5⟩] ["v"] (fun _ => "S")).2 := by
  have h := c8_idempotent_reports ["sda disk 10G\n"] ["sda disk 10G\n"]
    [⟨"a", "d", 5⟩] [⟨"a", "d", 5⟩] ["v"] ["v"] (fun _ => "S")
  exact ⟨h.1 rfl, h.2 rfl rfl⟩

/-- Claim C9: return-mode enumeration prints nothing on either backend; the
return precedes every print statement. -/
theorem c9_return_mode_prints_nothing
    (lsblkLines : List String) (diskDrives : List WinDisk)
    (volumes : List String) (fmtSize : Int → String) :
    (linuxCheckDisks lsblkLines true).2 = []
    ∧ (winCheckDisks diskDrives volumes fmtSize true).2 = [] :=
  ⟨rfl, rfl⟩

/-- Claim C10: the constructor's truthiness test sends None and the empty
string to enumerate-all and exactly the nonempty selectors to describe-one,
also when the selector comes from the argument vector. -/
theorem c10_constructor_truthiness (s : String) (argv : List String) :
    diskCheckerInit none = CheckerOp.enumerateAll
    ∧ diskCheckerInit (some "") = CheckerOp.enumerateAll
    ∧ (diskCheckerInit (some s) = CheckerOp.describeOne s ↔ s ≠ "")
    ∧ (mainSelector argv = some "" →
      diskCheckerInit (mainSelector argv) = CheckerOp.enumerateAll) := by
  refine ⟨rfl, rfl, ?_, ?_⟩
  · by_cases h : s = ""
    · subst h; simp [diskCheckerInit]
    · simp [diskCheckerInit, h]
  · intro h; rw [h]; rfl

/-- Witness for C10 with a nonempty selector and an empty-string argument. -/
theorem c10_constructor_truthiness_witness :
    diskCheckerInit (some "sda") = CheckerOp.describeOne "sda"
    ∧ diskCheckerInit (mainSelector ["prog", ""]) = CheckerOp.enumerateAll := by
  exact ⟨(c10_constructor_truthiness "sda" ["prog", ""]).2.2.1.mpr (by decide),
    (c10_constructor_truthiness "sda" ["prog", ""]).2.2.2 rfl⟩

end DiskSize
